import Mathlib

/-!
Verification of the TruthVisionAi client core: the media-submission and
result-interpretation pipeline implemented in frontend/src/App.jsx,
frontend/src/components/Upload.jsx and frontend/src/components/Result.jsx.

JavaScript numbers read from JSON are modelled as rationals; a value that is
undefined, or that became NaN through arithmetic on an undefined operand, is
modelled as none of Option Rat. This is faithful for the code at hand because
every nullish-coalescing test in Result.jsx is applied to a raw JSON field,
which can be absent but can never be NaN, and the remaining operations
(multiplication, subtraction, division by 100, comparisons) propagate NaN
exactly as the none-poisoning helpers below do, with comparisons on NaN
yielding false.
-/

namespace TruthVision

/-- A candidate media file as delivered by the file picker: its declared MIME
type and its size in bytes. -/
structure MediaFile where
  type : String
  size : Nat
deriving DecidableEq

/-- The optional secondary-verdict block of an AnalysisResult. -/
structure GrokVerdict where
  label : String
  confidence : Rat
deriving DecidableEq

/-- The optional ensemble block of an AnalysisResult. -/
structure EnsembleVerdict where
  label : String
  confidence : Rat
  agreement : Bool
deriving DecidableEq

/-- The raw JSON body of a 2xx response, as the client actually receives it:
every field may be absent, because the client performs no shape validation. -/
structure AnalysisResult where
  label : Option String
  confidence : Option Rat
  is_ai : Option Bool
  input_type : Option String
  ai_probability : Option Rat
  real_probability : Option Rat
  sampled_frames : Option Rat
  ai_frames : Option Rat
  real_frames : Option Rat
  sample_interval_sec : Option Rat
  duration_seconds : Option Rat
  grok : Option GrokVerdict
  ensemble : Option EnsembleVerdict
deriving DecidableEq

/-- Fixture constructor: an AnalysisResult whose video and cross-check blocks
are absent. -/
def basicResult (lbl : Option String) (conf : Option Rat) (isAi : Option Bool)
    (ity : Option String) (aiP realP : Option Rat) : AnalysisResult :=
  ⟨lbl, conf, isAi, ity, aiP, realP, none, none, none, none, none, none, none⟩

/-- JavaScript multiplication on a number that may be undefined or NaN: any
poisoned operand poisons the product. -/
def jsMul : Option Rat → Option Rat → Option Rat
  | some a, some b => some (a * b)
  | _, _ => none

/-- JavaScript subtraction with the same poisoning behaviour. -/
def jsSub : Option Rat → Option Rat → Option Rat
  | some a, some b => some (a - b)
  | _, _ => none

/-- JavaScript addition with the same poisoning behaviour. -/
def jsAdd : Option Rat → Option Rat → Option Rat
  | some a, some b => some (a + b)
  | _, _ => none

/-- JavaScript division by the literal 100 (the only division Result.jsx
performs), with the same poisoning behaviour. -/
def jsDiv100 : Option Rat → Option Rat
  | some a => some (a / 100)
  | none => none

/-- JavaScript strict greater-than against a plain literal: false when the
left side is NaN or undefined. -/
def jsGT (a : Option Rat) (b : Rat) : Bool :=
  match a with
  | some x => decide (b < x)
  | none => false

/-- JavaScript greater-or-equal against a plain literal: false when the left
side is NaN or undefined. -/
def jsGE (a : Option Rat) (b : Rat) : Bool :=
  match a with
  | some x => decide (b ≤ x)
  | none => false

/-- Result.jsx line 10: the displayed AI probability, as a percentage.
The nullish fallback prefers the explicit ai_probability field; otherwise it
derives the value from the truthiness of is_ai and from confidence. -/
def aiProbability (r : AnalysisResult) : Option Rat :=
  jsMul (match r.ai_probability with
    | some p => some p
    | none => if r.is_ai.getD false then r.confidence else jsSub (some 1) r.confidence)
    (some 100)

/-- Result.jsx line 11: the displayed real probability, as a percentage; the
fallback complements the already-scaled aiProbability. -/
def realProbability (r : AnalysisResult) : Option Rat :=
  jsMul (match r.real_probability with
    | some p => some p
    | none => jsDiv100 (jsSub (some 100) (aiProbability r)))
    (some 100)

/-- Result.jsx line 12: confidence scaled to a percentage. -/
def confidenceValue (r : AnalysisResult) : Option Rat :=
  jsMul r.confidence (some 100)

/-- The reliability buckets shown by Result.jsx. -/
inductive Tier
  | VeryHigh
  | Suspicious
  | Low
deriving DecidableEq

/-- Result.jsx getReliability, lines 17 to 37: a step function of the scaled
confidence with strict cut at 99.9 and inclusive cut at 90. -/
def getReliability (r : AnalysisResult) : Tier :=
  if jsGT (confidenceValue r) (999 / 10) then Tier.VeryHigh
  else if jsGE (confidenceValue r) 90 then Tier.Suspicious
  else Tier.Low

/-- The display-ready quantities Result.jsx derives from a raw result. -/
structure ResultView where
  isAiGenerated : Bool
  labelText : Option String
  aiProbabilityPct : Option Rat
  realProbabilityPct : Option Rat
  confidencePct : Option Rat
  reliabilityTier : Tier
  isVideo : Bool
  hasGrok : Bool
deriving DecidableEq

/-- The full derivation Result.jsx performs on render; it is defined on every
AnalysisResult, validated or not. -/
def interpret (r : AnalysisResult) : ResultView :=
  ⟨r.is_ai.getD false, r.label, aiProbability r, realProbability r,
   confidenceValue r, getReliability r, r.input_type == some "video", r.grok.isSome⟩

/-- The minimal response contract from the spec: label, confidence, is_ai and
input_type all present. The client never checks this. -/
def wellFormed (r : AnalysisResult) : Bool :=
  r.label.isSome && r.confidence.isSome && r.is_ai.isSome && r.input_type.isSome

/-- The five React state slots of App.jsx, lines 15 to 19. -/
structure AppState where
  file : Option MediaFile
  preview : Option Nat
  result : Option AnalysisResult
  loading : Bool
  error : Option String
deriving DecidableEq

/-- The app state together with the observable environment effects: object-URL
handles created and revoked, network calls issued, and requests in flight. -/
structure Sys where
  app : AppState
  nextHandle : Nat
  createdHandles : Nat
  releasedHandles : Nat
  networkCalls : Nat
  pending : Nat
deriving DecidableEq

/-- The initial mount: every slot null, loading false, no effects yet. -/
def initSys : Sys :=
  ⟨⟨none, none, none, false, none⟩, 0, 0, 0, 0, 0⟩

/-- App.jsx handleFileSelect, lines 24 to 29: store the file, clear the error,
and create a fresh preview handle with URL.createObjectURL. The code never
calls URL.revokeObjectURL, so no handle is released here. -/
def handleFileSelect (f : MediaFile) (s : Sys) : Sys :=
  { s with
    app := { s.app with file := some f, error := none, preview := some s.nextHandle },
    nextHandle := s.nextHandle + 1,
    createdHandles := s.createdHandles + 1 }

/-- Upload.jsx onDrop, lines 9 to 14: forward the first accepted file when the
list is nonempty. No size bound is checked anywhere on this path. -/
def onDrop (files : List MediaFile) (s : Sys) : Sys :=
  match files with
  | [] => s
  | f :: _ => handleFileSelect f s

/-- App.jsx handleAnalyze, lines 32 to 49, synchronous prefix: return
unchanged when no file is selected; otherwise set loading, clear error and
result, and issue the network call. There is no guard against a call that is
already in flight. -/
def handleAnalyze (s : Sys) : Sys :=
  match s.app.file with
  | none => s
  | some _ =>
    { s with
      app := { s.app with loading := true, error := none, result := none },
      networkCalls := s.networkCalls + 1,
      pending := s.pending + 1 }

/-- App.jsx line 53: the error message stored on failure, with JavaScript
string truthiness, so an empty string falls through each alternative. -/
def normalizeError (detail : Option String) (message : String) : String :=
  match detail with
  | some d =>
    if d = "" then (if message = "" then "An unknown error occurred." else message) else d
  | none => if message = "" then "An unknown error occurred." else message

/-- App.jsx lines 50 and 56 to 59: an in-flight request resolves successfully;
the raw body is stored unconditionally and the finally block clears loading. -/
def resolveSuccess (r : AnalysisResult) (s : Sys) : Sys :=
  { s with
    app := { s.app with result := some r, loading := false },
    pending := s.pending - 1 }

/-- App.jsx lines 51 to 59: an in-flight request rejects; the normalized
message is stored unconditionally and the finally block clears loading. -/
def resolveFailure (detail : Option String) (message : String) (s : Sys) : Sys :=
  { s with
    app := { s.app with error := some (normalizeError detail message), loading := false },
    pending := s.pending - 1 }

/-- App.jsx handleReset, lines 63 to 69: every slot back to its initial value.
No handle is revoked and no in-flight request is aborted. -/
def handleReset (s : Sys) : Sys :=
  { s with app := ⟨none, none, none, false, none⟩ }

/-- What the central panel of App.jsx renders, lines 71 to 93. -/
inductive Rendered
  | loadingPanel
  | resultPanel (r : AnalysisResult)
  | uploadPanel (analyzeButton : Bool)
deriving DecidableEq

/-- App.jsx renderContent, lines 71 to 93: the Loading panel while loading,
else the Result panel when a result is held, else the Upload panel with the
Analyze button exactly when a file is selected. -/
def renderContent (a : AppState) : Rendered :=
  if a.loading then Rendered.loadingPanel
  else
    match a.result with
    | some r => Rendered.resultPanel r
    | none => Rendered.uploadPanel a.file.isSome

/-- App.jsx lines 140 to 144: the error banner is shown iff error is non-null. -/
def errorBannerShown (a : AppState) : Bool :=
  a.error.isSome

/-- The states the client can actually be in: the initial mount followed by
any sequence of user events and request resolutions; a resolution can only
arrive while a request is in flight. -/
inductive Reachable : Sys → Prop
  | init : Reachable initSys
  | drop (files : List MediaFile) (s : Sys) :
      Reachable s → Reachable (onDrop files s)
  | analyze (s : Sys) : Reachable s → Reachable (handleAnalyze s)
  | success (r : AnalysisResult) (s : Sys) :
      Reachable s → 0 < s.pending → Reachable (resolveSuccess r s)
  | failure (d : Option String) (m : String) (s : Sys) :
      Reachable s → 0 < s.pending → Reachable (resolveFailure d m s)
  | reset (s : Sys) : Reachable s → Reachable (handleReset s)

/-- C1: For every AnalysisResult, the derived aiProbabilityPct equals
ai_probability times 100 when ai_probability is present; otherwise it equals
confidence times 100 when is_ai is true, and (1 - confidence) times 100 when
is_ai is false. -/
theorem c1_aiProbability_formula (r : AnalysisResult) :
    (∀ p : Rat, r.ai_probability = some p → aiProbability r = some (p * 100)) ∧
    (r.ai_probability = none → ∀ c : Rat, r.confidence = some c →
      (r.is_ai = some true → aiProbability r = some (c * 100)) ∧
      (r.is_ai = some false → aiProbability r = some ((1 - c) * 100))) := by
  refine ⟨fun p hp => ?_, fun h0 c hc => ⟨fun hb => ?_, fun hb => ?_⟩⟩
  · simp [aiProbability, hp, jsMul]
  · simp [aiProbability, h0, hc, hb, jsMul, Option.getD]
  · simp [aiProbability, h0, hc, hb, jsMul, jsSub, Option.getD]

/-- C1 witness: the spec scenario with confidence 0.97, is_ai true and no
explicit probability fields yields an AI probability of 97 percent. -/
theorem c1_witness :
    aiProbability (basicResult (some "AI-Generated") (some (97 / 100)) (some true)
      (some "image") none none) = some 97 := by
  have h := ((c1_aiProbability_formula (basicResult (some "AI-Generated") (some (97 / 100))
    (some true) (some "image") none none)).2 rfl (97 / 100) rfl).1 rfl
  have h97 : (97 / 100 : Rat) * 100 = 97 := by norm_num
  rw [h, h97]

/-- C2 counterexample: with ai_probability absent but real_probability present
and equal to 0.5, a result with confidence 0.97 and is_ai true shows
percentages 97 and 50, whose sum 147 is not 100 within tolerance 0.0001. -/
theorem c2_counterexample :
    jsAdd
      (aiProbability (basicResult (some "AI-Generated") (some (97 / 100)) (some true)
        (some "image") none (some (1 / 2))))
      (realProbability (basicResult (some "AI-Generated") (some (97 / 100)) (some true)
        (some "image") none (some (1 / 2)))) = some 147 ∧
    ¬ |(147 : Rat) - 100| ≤ 1 / 10000 := by
  refine ⟨by norm_num [jsAdd, jsMul, aiProbability, realProbability, basicResult, Option.getD],
    by norm_num⟩

/-- C2 amended: for every AnalysisResult in which both ai_probability and
real_probability are absent and confidence is present, the derived
aiProbabilityPct and realProbabilityPct are defined and sum to exactly 100
(hence within the stated tolerance); when real_probability is present it is
used directly and the sum need not be 100. -/
theorem c2_amended_sum (r : AnalysisResult) (c : Rat)
    (h1 : r.ai_probability = none) (h2 : r.real_probability = none)
    (hc : r.confidence = some c) :
    jsAdd (aiProbability r) (realProbability r) = some 100 := by
  have h100 : (100 : Rat) ≠ 0 := by norm_num
  cases hb : r.is_ai.getD false with
  | false =>
    have ha : aiProbability r = some ((1 - c) * 100) := by
      simp [aiProbability, h1, hb, hc, jsMul, jsSub]
    have hr : realProbability r = some ((100 - (1 - c) * 100) / 100 * 100) := by
      simp [realProbability, h2, ha, jsMul, jsSub, jsDiv100]
    rw [ha, hr]
    simp [jsAdd, div_mul_cancel₀ _ h100]
  | true =>
    have ha : aiProbability r = some (c * 100) := by
      simp [aiProbability, h1, hb, hc, jsMul]
    have hr : realProbability r = some ((100 - c * 100) / 100 * 100) := by
      simp [realProbability, h2, ha, jsMul, jsSub, jsDiv100]
    rw [ha, hr]
    simp [jsAdd, div_mul_cancel₀ _ h100]

/-- C2 witness: with confidence 0.3, is_ai true and both probability fields
absent, the two percentages sum to 100. -/
theorem c2_amended_sum_witness :
    jsAdd
      (aiProbability (basicResult (some "AI-Generated") (some (3 / 10)) (some true)
        (some "image") none none))
      (realProbability (basicResult (some "AI-Generated") (some (3 / 10)) (some true)
        (some "image") none none)) = some 100 :=
  c2_amended_sum (basicResult (some "AI-Generated") (some (3 / 10)) (some true)
    (some "image") none none) (3 / 10) rfl rfl rfl

/-- C3: the reliability tier is a pure step function of
confidencePct = confidence times 100, with cut points: above 99.9 VeryHigh,
from 90 to 99.9 inclusive Suspicious, below 90 Low; in particular 99.95 maps
to VeryHigh, 99.9 and 90.0 map to Suspicious, and 89.999 maps to Low. -/
theorem c3_reliability_step :
    (∀ (r : AnalysisResult) (q : Rat), confidenceValue r = some q →
      (999 / 10 < q → getReliability r = Tier.VeryHigh) ∧
      (90 ≤ q → q ≤ 999 / 10 → getReliability r = Tier.Suspicious) ∧
      (q < 90 → getReliability r = Tier.Low)) ∧
    getReliability (basicResult (some "AI-Generated") (some (1999 / 2000)) (some true)
      (some "image") none none) = Tier.VeryHigh ∧
    getReliability (basicResult (some "AI-Generated") (some (999 / 1000)) (some true)
      (some "image") none none) = Tier.Suspicious ∧
    getReliability (basicResult (some "AI-Generated") (some (9 / 10)) (some true)
      (some "image") none none) = Tier.Suspicious ∧
    getReliability (basicResult (some "AI-Generated") (some (89999 / 100000)) (some true)
      (some "image") none none) = Tier.Low := by
  refine ⟨fun r q hq => ⟨fun h1 => ?_, fun h2 h3 => ?_, fun h4 => ?_⟩,
    by norm_num [getReliability, confidenceValue, basicResult, jsMul, jsGT, jsGE],
    by norm_num [getReliability, confidenceValue, basicResult, jsMul, jsGT, jsGE],
    by norm_num [getReliability, confidenceValue, basicResult, jsMul, jsGT, jsGE],
    by norm_num [getReliability, confidenceValue, basicResult, jsMul, jsGT, jsGE]⟩
  · have hgt : jsGT (some q) (999 / 10) = true := by simp [jsGT]; exact h1
    simp [getReliability, hq, hgt]
  · have hgt : jsGT (some q) (999 / 10) = false := by simp [jsGT]; exact h3
    have hge : jsGE (some q) 90 = true := by simp [jsGE]; exact h2
    simp [getReliability, hq, hgt, hge]
  · have hgt : jsGT (some q) (999 / 10) = false := by
      simp [jsGT]
      exact le_trans (le_of_lt h4) (by norm_num)
    have hge : jsGE (some q) 90 = false := by simp [jsGE]; exact h4
    simp [getReliability, hq, hgt, hge]

/-- C3 witness: a confidence of 0.95 gives confidencePct 95, inside the
Suspicious band. -/
theorem c3_witness :
    getReliability (basicResult (some "AI-Generated") (some (19 / 20)) (some true)
      (some "image") none none) = Tier.Suspicious :=
  ((c3_reliability_step.1 (basicResult (some "AI-Generated") (some (19 / 20)) (some true)
    (some "image") none none) 95
    (by norm_num [confidenceValue, basicResult, jsMul])).2.1 (by norm_num) (by norm_num))

/-- C4, the code evaluated at the failing input: the claim fails on the code.
Upload.jsx performs no size validation, so a video candidate of 104857601
bytes (one byte over 100 MiB) is accepted by onDrop, replaces the prior
selection, and no FileTooLarge error is surfaced. -/
theorem c4_oversized_video_accepted :
    (onDrop [⟨"video/mp4", 104857601⟩]
      (handleFileSelect ⟨"image/png", 1000⟩ initSys)).app.file
        = some ⟨"video/mp4", 104857601⟩ ∧
    (onDrop [⟨"video/mp4", 104857601⟩]
      (handleFileSelect ⟨"image/png", 1000⟩ initSys)).app.error = none :=
  ⟨rfl, rfl⟩

/-- C5 counterexample: with a file selected, a first handleAnalyze is in
flight (loading true), yet a second handleAnalyze is not rejected: the two
invocations together issue two network calls, not at most one. -/
theorem c5_counterexample :
    (handleAnalyze (handleFileSelect ⟨"image/png", 1000⟩ initSys)).app.loading = true ∧
    (handleAnalyze (handleAnalyze
      (handleFileSelect ⟨"image/png", 1000⟩ initSys))).networkCalls = 2 :=
  ⟨rfl, rfl⟩

/-- C5 amended: handleAnalyze carries no AlreadySubmitting guard — whenever a
file is selected it issues a network call even while one is already in
flight — and double submission is prevented only at the render layer: while
loading is true, renderContent shows the Loading panel, so the Analyze button
that invokes handleAnalyze is not rendered at all. -/
theorem c5_no_submit_guard (s : Sys) :
    (∀ f : MediaFile, s.app.file = some f →
      (handleAnalyze s).networkCalls = s.networkCalls + 1) ∧
    (s.app.loading = true → renderContent s.app = Rendered.loadingPanel) := by
  constructor
  · intro f hf
    simp [handleAnalyze, hf]
  · intro hl
    simp [renderContent, hl]

/-- C5 witness: in the concrete in-flight state, a direct second call
increments the network-call count, and the rendered content is the Loading
panel without the Analyze button. -/
theorem c5_no_submit_guard_witness :
    (handleAnalyze (handleAnalyze (handleFileSelect ⟨"image/png", 1000⟩ initSys))).networkCalls
      = (handleAnalyze (handleFileSelect ⟨"image/png", 1000⟩ initSys)).networkCalls + 1 ∧
    renderContent (handleAnalyze (handleFileSelect ⟨"image/png", 1000⟩ initSys)).app
      = Rendered.loadingPanel :=
  ⟨(c5_no_submit_guard (handleAnalyze (handleFileSelect ⟨"image/png", 1000⟩ initSys))).1
      ⟨"image/png", 1000⟩ rfl,
   (c5_no_submit_guard (handleAnalyze (handleFileSelect ⟨"image/png", 1000⟩ initSys))).2 rfl⟩

/-- C6 counterexample: a submission is in flight, a reset empties the state,
and the late success resolution then repopulates the Succeeded state: the
stored result changes from none back to the arriving payload. -/
theorem c6_counterexample :
    (handleReset (handleAnalyze
      (handleFileSelect ⟨"image/png", 1000⟩ initSys))).app.result = none ∧
    (resolveSuccess
      (basicResult (some "AI-Generated") (some (97 / 100)) (some true) (some "image") none none)
      (handleReset (handleAnalyze
        (handleFileSelect ⟨"image/png", 1000⟩ initSys)))).app.result
      = some (basicResult (some "AI-Generated") (some (97 / 100)) (some true) (some "image")
          none none) :=
  ⟨rfl, rfl⟩

/-- C6 amended: requests carry no generation tag, and a resolution is applied
unconditionally in whatever state it arrives: a success stores its payload as
the result and clears loading, and a failure stores its normalized message,
in particular when the state was reset while the request was in flight. -/
theorem c6_no_generation_guard (s : Sys) (r : AnalysisResult) :
    (resolveSuccess r s).app.result = some r ∧
    (resolveSuccess r s).app.loading = false ∧
    ∀ (d : Option String) (m : String),
      (resolveFailure d m s).app.error = some (normalizeError d m) :=
  ⟨rfl, rfl, fun _ _ => rfl⟩

/-- C7: the Failed-state message prefers the server-supplied detail when it is
supplied as a nonempty string, else the transport-level error text when
nonempty, else the generic fallback; in the HTTP 500 scenario with detail
"model unavailable" the stored message is exactly "model unavailable". -/
theorem c7_error_normalization :
    (∀ d m : String, d ≠ "" → normalizeError (some d) m = d) ∧
    (∀ m : String, m ≠ "" → normalizeError none m = m) ∧
    normalizeError none "" = "An unknown error occurred." ∧
    ∀ s : Sys,
      (resolveFailure (some "model unavailable") "Request failed with status code 500" s).app.error
        = some "model unavailable" := by
  refine ⟨fun d m hd => ?_, fun m hm => ?_, rfl, fun s => rfl⟩
  · simp [normalizeError, hd]
  · simp [normalizeError, hm]

/-- C7 witness: the 500-scenario detail is stored verbatim, and a detail-free
network failure stores the transport text. -/
theorem c7_witness :
    normalizeError (some "model unavailable") "Request failed with status code 500"
      = "model unavailable" ∧
    normalizeError none "Network Error" = "Network Error" :=
  ⟨c7_error_normalization.1 "model unavailable" "Request failed with status code 500"
      (by decide),
   c7_error_normalization.2.1 "Network Error" (by decide)⟩

/-- C8 counterexample: a 2xx body missing the required confidence field is not
rejected — it fails the contract, yet it is stored as the result with no
error, the result panel is rendered, and the derived view carries an
undefined (NaN) confidence percentage instead of an InvalidResultShape
failure with no view computed. -/
theorem c8_counterexample :
    wellFormed (basicResult (some "AI-Generated") none (some true) (some "image") none none)
      = false ∧
    (resolveSuccess
      (basicResult (some "AI-Generated") none (some true) (some "image") none none)
      (handleAnalyze (handleFileSelect ⟨"image/png", 1000⟩ initSys))).app.result
      = some (basicResult (some "AI-Generated") none (some true) (some "image") none none) ∧
    (resolveSuccess
      (basicResult (some "AI-Generated") none (some true) (some "image") none none)
      (handleAnalyze (handleFileSelect ⟨"image/png", 1000⟩ initSys))).app.error = none ∧
    renderContent (resolveSuccess
      (basicResult (some "AI-Generated") none (some true) (some "image") none none)
      (handleAnalyze (handleFileSelect ⟨"image/png", 1000⟩ initSys))).app
      = Rendered.resultPanel
          (basicResult (some "AI-Generated") none (some true) (some "image") none none) ∧
    (interpret (basicResult (some "AI-Generated") none (some true) (some "image")
      none none)).confidencePct = none :=
  ⟨rfl, rfl, rfl, rfl, rfl⟩

/-- C8 amended: result interpretation is total — interpret is defined on every
AnalysisResult, and on well-formed ones every derived numeric field is
defined — but a 2xx response violating the minimal contract is never
rejected: no InvalidResultShape error exists, the body is stored
unconditionally as the Succeeded result, and the view renders with undefined
(NaN) numeric fields as silent defaults. -/
theorem c8_totality_no_validation :
    (∀ r : AnalysisResult, wellFormed r = true →
      (interpret r).confidencePct.isSome = true ∧
      (interpret r).aiProbabilityPct.isSome = true ∧
      (interpret r).realProbabilityPct.isSome = true) ∧
    (∀ (r : AnalysisResult) (s : Sys),
      (resolveSuccess r s).app.result = some r ∧
      (resolveSuccess r s).app.error = s.app.error) := by
  constructor
  · intro r hwf
    simp only [wellFormed, Bool.and_eq_true, Option.isSome_iff_exists] at hwf
    obtain ⟨⟨⟨⟨l, hl⟩, ⟨c, hc⟩⟩, ⟨b, hb⟩⟩, ⟨t, ht⟩⟩ := hwf
    have hai : ∃ a : Rat, aiProbability r = some a := by
      cases hp : r.ai_probability with
      | some p => exact ⟨p * 100, by simp [aiProbability, hp, jsMul]⟩
      | none =>
        cases hgb : r.is_ai.getD false with
        | true => exact ⟨c * 100, by simp [aiProbability, hp, hgb, hc, jsMul]⟩
        | false => exact ⟨(1 - c) * 100, by simp [aiProbability, hp, hgb, hc, jsMul, jsSub]⟩
    obtain ⟨a, ha⟩ := hai
    refine ⟨?_, ?_, ?_⟩
    · simp [interpret, confidenceValue, hc, jsMul]
    · simp [interpret, ha]
    · cases hrp : r.real_probability with
      | some p => simp [interpret, realProbability, hrp, jsMul]
      | none => simp [interpret, realProbability, hrp, ha, jsMul, jsSub, jsDiv100]
  · exact fun r s => ⟨rfl, rfl⟩

/-- C8 witness: on the well-formed spec scenario result all derived numeric
fields of the view are defined. -/
theorem c8_totality_witness :
    (interpret (basicResult (some "AI-Generated") (some (97 / 100)) (some true)
      (some "image") none none)).confidencePct.isSome = true ∧
    (interpret (basicResult (some "AI-Generated") (some (97 / 100)) (some true)
      (some "image") none none)).aiProbabilityPct.isSome = true ∧
    (interpret (basicResult (some "AI-Generated") (some (97 / 100)) (some true)
      (some "image") none none)).realProbabilityPct.isSome = true :=
  c8_totality_no_validation.1
    (basicResult (some "AI-Generated") (some (97 / 100)) (some true) (some "image") none none)
    rfl

/-- C9 counterexample: two consecutive selections create two preview handles
and release none of them — the second select does not release the previously
held handle at all, let alone exactly once. -/
theorem c9_counterexample :
    (handleFileSelect ⟨"image/jpeg", 2000⟩
      (handleFileSelect ⟨"image/png", 1000⟩ initSys)).createdHandles = 2 ∧
    (handleFileSelect ⟨"image/jpeg", 2000⟩
      (handleFileSelect ⟨"image/png", 1000⟩ initSys)).releasedHandles = 0 :=
  ⟨rfl, rfl⟩

/-- C9 amended: preview handles are never released — handleFileSelect installs
a fresh handle without revoking the prior one, and handleReset merely drops
the reference — so in every reachable state the count of released handles is
still zero: handles leak, and in particular none is ever double-released; the
app still holds at most one file and one preview reference at a time. -/
theorem c9_handles_never_released (s : Sys) (h : Reachable s) :
    s.releasedHandles = 0 := by
  induction h with
  | init => rfl
  | drop files s a ih =>
    cases files with
    | nil => exact ih
    | cons f fs => exact ih
  | analyze s a ih =>
    cases hf : s.app.file with
    | none => simpa [handleAnalyze, hf] using ih
    | some f => simpa [handleAnalyze, hf] using ih
  | success r s a hp ih => exact ih
  | failure d m s a hp ih => exact ih
  | reset s a ih => exact ih

/-- C9 witness: after a single reachable selection, no handle has been
released. -/
theorem c9_handles_never_released_witness :
    (onDrop [⟨"image/png", 1000⟩] initSys).releasedHandles = 0 :=
  c9_handles_never_released (onDrop [⟨"image/png", 1000⟩] initSys)
    (Reachable.drop [⟨"image/png", 1000⟩] initSys Reachable.init)

/-- The inductive invariant behind C10: along every reachable trace, whenever
loading is set both the result and the error slot are empty, because
handleAnalyze clears them in the same step that sets loading and every
resolution clears loading in the same step that fills a slot. -/
theorem loading_clears_result_error (s : Sys) (h : Reachable s) :
    s.app.loading = true → s.app.result = none ∧ s.app.error = none := by
  induction h with
  | init => intro hl; cases hl
  | drop files s a ih =>
    cases files with
    | nil => exact ih
    | cons f fs => exact fun hl => ⟨(ih hl).1, rfl⟩
  | analyze s a ih =>
    cases hf : s.app.file with
    | none => simpa [handleAnalyze, hf] using ih
    | some f =>
      intro _
      simp [handleAnalyze, hf]
  | success r s a hp ih =>
    intro hl
    simp [resolveSuccess] at hl
  | failure d m s a hp ih =>
    intro hl
    simp [resolveFailure] at hl
  | reset s a ih =>
    intro hl
    simp [handleReset] at hl

/-- C10: in every reachable state with the loading flag set, the stored result
and the stored error are both null, so the loading indicator is rendered
alone — never beside a result view, and never beside an error banner. -/
theorem c10_loading_exclusive (s : Sys) (h : Reachable s)
    (hl : s.app.loading = true) :
    s.app.result = none ∧ s.app.error = none ∧
    renderContent s.app = Rendered.loadingPanel ∧ errorBannerShown s.app = false := by
  obtain ⟨h1, h2⟩ := loading_clears_result_error s h hl
  exact ⟨h1, h2, by simp [renderContent, hl], by simp [errorBannerShown, h2]⟩

/-- C10 witness: the concrete reachable state with a submission in flight has
no result, no error, shows the Loading panel and no error banner. -/
theorem c10_loading_exclusive_witness :
    (handleAnalyze (onDrop [⟨"image/png", 1000⟩] initSys)).app.result = none ∧
    (handleAnalyze (onDrop [⟨"image/png", 1000⟩] initSys)).app.error = none ∧
    renderContent (handleAnalyze (onDrop [⟨"image/png", 1000⟩] initSys)).app
      = Rendered.loadingPanel ∧
    errorBannerShown (handleAnalyze (onDrop [⟨"image/png", 1000⟩] initSys)).app = false :=
  c10_loading_exclusive (handleAnalyze (onDrop [⟨"image/png", 1000⟩] initSys))
    (Reachable.analyze (onDrop [⟨"image/png", 1000⟩] initSys)
      (Reachable.drop [⟨"image/png", 1000⟩] initSys Reachable.init))
    rfl

end TruthVision
